import Mathlib

/-!
Verification of the water-level IoT simulator corpus (cwl-iot-simulater).

The development shallowly embeds the telemetry-generation and Sparkplug-B
framing logic of the four Python simulator variants:

* `SparkSingle` — `sparkplug_water_level_simulator.py`, class
  `SparkplugBWaterLevelSimulator` (NBIRTH/NDATA flow, rain-event state
  machine, tahu-encoded payloads);
* `SparkMulti` — `sparkplug_multi_device_simulator.py`, class
  `SparkplugBDevice` (per-device JSON Sparkplug-style payloads);
* `BasicSim` — `water_level_simulator.py`, class `WaterLevelSimulator`
  (plain JSON telemetry);
* `MultiSim` — `multi_device_simulator.py`, class `WaterLevelDevice`
  (plain JSON telemetry, several devices).

Python floats are modelled as exact rationals (`ℚ`); the values that the
source draws from `random.*` or from `math.sin`/`time.time` enter the
model as explicit per-tick inputs, bounded by hypotheses where a claim
needs the bound (e.g. `|sin| ≤ 1`).  Machine behaviour that the claims do
not touch (IEEE rounding error) is idealised away.
-/

/-- Rounding helper modelling Python `round(x, n)` on our exact rationals
(half-up; the tie-breaking detail of Python's banker rounding is irrelevant
to every property proved below, which never depends on a tie). -/
def roundTo (digits : Nat) (x : ℚ) : ℚ :=
  ((⌊x * 10 ^ digits + 1 / 2⌋ : ℤ) : ℚ) / 10 ^ digits

/-- Sparkplug sequence-number advance, shared verbatim by
`SparkplugBWaterLevelSimulator.create_nbirt_payload` /
`create_ndata_payload` and `SparkplugBDevice.generate_sparkplug_payload`:
`self.seq_number += 1; if self.seq_number > 255: self.seq_number = 0`. -/
def nextSeq (s : Nat) : Nat := if s + 1 > 255 then 0 else s + 1

/-- Sparkplug message kind of a published frame. -/
inductive SpMsgKind
  | nbirth
  | ndata
  deriving DecidableEq

/-- The tahu `MetricDataType` values used by the simulators
(`type_mapping` in `create_sparkplug_metric`). -/
inductive MetricDataType
  | float
  | int32
  | double
  | boolean
  | string
  deriving DecidableEq

/-- Transport actions a device runner performs, in order. -/
inductive Act
  | connect
  | publish
  | disconnect
  deriving DecidableEq

/-- How one iteration of a tick loop ends: `ok` (publish, then keep
looping), `interrupt` (KeyboardInterrupt raised during the iteration),
`error` (any other exception).  The two raising outcomes abort the loop;
both are caught (or, for KeyboardInterrupt in `WaterLevelDevice`,
propagate) past the loop, and the `finally:` block still runs. -/
inductive TickEv
  | ok
  | interrupt
  | error
  deriving DecidableEq

namespace SparkSingle

/-- `self.base_water_level = 1.5` (meters). -/
def base_water_level : ℚ := 3 / 2

/-- `self.rain_rise_rate = 0.02` (meters/second). -/
def rain_rise_rate : ℚ := 1 / 50

/-- `self.alert_level = 1.0` (meters). -/
def alert_level : ℚ := 1

/-- `self.send_interval = 60` (seconds). -/
def send_interval : ℚ := 60

/-- `descent_rate = 0.01 * (self.send_interval / 5.0)` from
`create_ndata_payload`'s post-rain decay branch. -/
def descent_rate : ℚ := (1 / 100) * (send_interval / 5)

/-- Mutable simulation state of one `SparkplugBWaterLevelSimulator`:
the rain-event sub-state, the current water level and the Sparkplug
sequence number. -/
structure SimState where
  rainActive : Bool
  rainStart : ℚ
  rainDuration : ℚ
  currentLevel : ℚ
  seqNumber : Nat
  deriving DecidableEq

/-- State right after `__init__`: no rain event, level at
`base_water_level`, `seq_number = 0`. -/
def initState : SimState :=
  { rainActive := false, rainStart := 0, rainDuration := 0,
    currentLevel := base_water_level, seqNumber := 0 }

/-- Per-tick environment inputs of `create_ndata_payload`: the wall clock,
the outcome of the `random.random() < self.rain_probability` draw, the
`random.randint(120, 300)` duration sample, the value of
`math.sin(time.time() / 100)`, the `random.uniform(-0.05, 0.05)` noise,
and the auxiliary battery/signal draws. -/
structure TickIn where
  now : ℚ
  rain_trigger : Bool
  sampled_duration : ℚ
  sinv : ℚ
  noise : ℚ
  batV : ℚ
  sig : ℤ
  deriving DecidableEq

/-- `check_and_update_rain_event`: if a rain event is active it ends once
`current_time - self.rain_start_time >= self.rain_duration`; otherwise a
fresh event starts when the probability draw fires, recording start time
and sampled duration.  Returns the new state and `status_changed`. -/
def check_and_update_rain_event (now : ℚ) (trigger : Bool) (dur : ℚ)
    (s : SimState) : SimState × Bool :=
  if s.rainActive then
    if s.rainDuration ≤ now - s.rainStart then
      ({ s with rainActive := false }, true)
    else (s, false)
  else
    if trigger then
      ({ s with rainActive := true, rainStart := now, rainDuration := dur },
        true)
    else (s, false)

/-- `self.metric_aliases.get(name, 0)` over the fixed table
`WaterLevel ↦ 1, BatteryVoltage ↦ 3, SignalStrength ↦ 4`. -/
def metric_aliases_get (name : String) : Nat :=
  if name = "WaterLevel" then 1
  else if name = "BatteryVoltage" then 3
  else if name = "SignalStrength" then 4
  else 0

/-- `type_mapping.get(data_type, sparkplug_b.MetricDataType.String)`. -/
def type_mapping (data_type : String) : MetricDataType :=
  if data_type = "Float" then MetricDataType.float
  else if data_type = "Int32" then MetricDataType.int32
  else if data_type = "Double" then MetricDataType.double
  else if data_type = "Boolean" then MetricDataType.boolean
  else MetricDataType.string

/-- A metric dictionary as built by
`SparkplugBWaterLevelSimulator.create_sparkplug_metric`.  Fields that the
source includes only in one of the two modes (`for_nbirt`) are `Option`s;
`engUnits`/`descr` model the optional `properties` sub-dictionary. -/
structure SMetric where
  name : Option String
  aliasNum : Nat
  timestamp : ℚ
  dataType : Option MetricDataType
  value : ℚ
  engUnits : Option String
  descr : Option String
  deriving DecidableEq

/-- `create_sparkplug_metric(name, value, data_type, engineering_units,
description, for_nbirt)`: NBIRTH mode carries name, alias, timestamp,
data type, value and the optional properties; NDATA mode carries only
alias, timestamp and value. -/
def create_sparkplug_metric (name : String) (value : ℚ) (data_type : String)
    (engineering_units descr : Option String) (for_nbirt : Bool)
    (ts : ℚ) : SMetric :=
  let metric_type := type_mapping data_type
  if for_nbirt then
    { name := some name, aliasNum := metric_aliases_get name, timestamp := ts,
      dataType := some metric_type, value := value,
      engUnits := engineering_units, descr := descr }
  else
    { name := none, aliasNum := metric_aliases_get name, timestamp := ts,
      dataType := none, value := value, engUnits := none, descr := none }

/-- One metric as appended by `sparkplug_b.addMetric(payload, name, alias,
type, value)` (the tahu protobuf path used by `create_nbirt_payload` and
`create_ndata_payload`). -/
structure TahuMetric where
  name : String
  aliasNum : Nat
  dataType : MetricDataType
  value : ℚ
  deriving DecidableEq

/-- A tahu `Payload`: metric list plus the `seq` field the simulator sets. -/
structure TahuPayload where
  metrics : List TahuMetric
  seq : Nat
  deriving DecidableEq

/-- The water-level update of `create_ndata_payload`, applied to the state
returned by `check_and_update_rain_event`.  While raining the level rises
by `rain_rise_rate * send_interval`, capped at `alert_level * 1.5`;
otherwise the target is `base + sin(t/100)*0.1 + noise`, a level above the
target descends by at most `descent_rate` (never below the target), a
level at or below it snaps to it, and the result is clamped to
`[0.0, 3.0]`. -/
def next_level (t : TickIn) (s1 : SimState) : ℚ :=
  if s1.rainActive then
    min (s1.currentLevel + rain_rise_rate * send_interval)
      (alert_level * (3 / 2))
  else
    let sine_wave := t.sinv * (1 / 10)
    let target_level := base_water_level + sine_wave + t.noise
    let lv :=
      if target_level < s1.currentLevel then
        max target_level (s1.currentLevel - descent_rate)
      else target_level
    max 0 (min 3 lv)

/-- `create_ndata_payload`: update the rain event, move the water level,
emit the three alias-only metrics (empty names, aliases 1/3/4) with the
current `seq`, and advance the sequence number. -/
def create_ndata_payload (t : TickIn) (s : SimState) : SimState × TahuPayload :=
  let s1 := (check_and_update_rain_event t.now t.rain_trigger
    t.sampled_duration s).1
  let lv := next_level t s1
  let water_level_cm := lv * 100
  ( { s1 with currentLevel := lv, seqNumber := nextSeq s.seqNumber },
    { metrics :=
        [ { name := "", aliasNum := 1, dataType := MetricDataType.float,
            value := roundTo 2 water_level_cm },
          { name := "", aliasNum := 3, dataType := MetricDataType.float,
            value := t.batV },
          { name := "", aliasNum := 4, dataType := MetricDataType.float,
            value := (t.sig : ℚ) } ],
      seq := s.seqNumber } )

/-- Random draws consumed by `create_nbirt_payload`. -/
structure BirthIn where
  batV : ℚ
  sig : ℤ
  deriving DecidableEq

/-- `create_nbirt_payload`: full named metrics (initial water level is
`base_water_level * 100` cm), current `seq`, then advance the counter. -/
def create_nbirt_payload (b : BirthIn) (s : SimState) : SimState × TahuPayload :=
  let water_level_cm := base_water_level * 100
  ( { s with seqNumber := nextSeq s.seqNumber },
    { metrics :=
        [ { name := "WaterLevel", aliasNum := 1,
            dataType := MetricDataType.float, value := water_level_cm },
          { name := "BatteryVoltage", aliasNum := 3,
            dataType := MetricDataType.float, value := b.batV },
          { name := "SignalStrength", aliasNum := 4,
            dataType := MetricDataType.float, value := (b.sig : ℚ) } ],
      seq := s.seqNumber } )

/-- `f"spBv1.0/{community_id}/NBIRTH/{device_id}"`. -/
def nbirt_topic (community device : String) : String :=
  "spBv1.0/" ++ community ++ "/NBIRTH/" ++ device

/-- `f"spBv1.0/{community_id}/NDATA/{device_id}"`. -/
def ndata_topic (community device : String) : String :=
  "spBv1.0/" ++ community ++ "/NDATA/" ++ device

/-- One published MQTT message of the Sparkplug flow, tagged with the
`message_type` string `start_simulation` passes to `send_sparkplug_data`. -/
structure Msg where
  kind : SpMsgKind
  topic : String
  payload : TahuPayload
  deriving DecidableEq

/-- The NDATA loop of `start_simulation`: one published NDATA frame per
iteration, threading the simulation state. -/
def run_ndata_frames (community device : String) (s : SimState) :
    List TickIn → List Msg
  | [] => []
  | t :: ts =>
      let r := create_ndata_payload t s
      { kind := SpMsgKind.ndata, topic := ndata_topic community device,
        payload := r.2 } :: run_ndata_frames community device r.1 ts

/-- The full emission sequence of `start_simulation` after a successful
connect: first the NBIRTH frame, then one NDATA frame per loop iteration
(a shorter input list models an earlier loop exit). -/
def run_emissions (community device : String) (b : BirthIn)
    (ticks : List TickIn) : List Msg :=
  let r := create_nbirt_payload b initState
  { kind := SpMsgKind.nbirth, topic := nbirt_topic community device,
    payload := r.2 } :: run_ndata_frames community device r.1 ticks

/-- Water levels produced tick by tick by the NDATA loop. -/
def level_trace (s : SimState) : List TickIn → List ℚ
  | [] => []
  | t :: ts =>
      let r := create_ndata_payload t s
      r.1.currentLevel :: level_trace r.1 ts

/-- Tick-loop actions: each iteration publishes; a raising iteration
(interrupt or error) ends the loop after its publish. -/
def loop_acts : List TickEv → List Act
  | [] => []
  | TickEv.ok :: es => Act.publish :: loop_acts es
  | _ :: _ => [Act.publish]

/-- Transport-action trace of `start_simulation`: a failed `connect`
returns immediately; otherwise the NBIRTH publish and the NDATA loop run
inside `try:`, and the `finally:` block always issues the disconnect. -/
def run_actions (connect_ok : Bool) (evs : List TickEv) : List Act :=
  if connect_ok then
    (Act.connect :: Act.publish :: loop_acts evs) ++ [Act.disconnect]
  else []

end SparkSingle

namespace SparkMulti

/-- `self.max_variation = 0.2 + (device_index * 0.05)`. -/
def max_variation (device_index : Nat) : ℚ := 1 / 5 + (device_index : ℚ) * (1 / 20)

/-- Mutable state of one `SparkplugBDevice`: current level and sequence
number (initialised to the device index). -/
structure MState where
  currentLevel : ℚ
  seqNumber : Nat
  deriving DecidableEq

/-- Per-tick environment inputs of `generate_sparkplug_payload`: wall
clock (ms), the value of `math.sin(time_factor + phase_shift)`, the
`random.uniform(-0.02, 0.02)` noise, the `random.uniform(-0.4, 0.5)`
battery draw and the `random.randint(-15, 10)` signal draw. -/
structure MTick where
  now : ℚ
  sinv : ℚ
  noise : ℚ
  battRand : ℚ
  sigRand : ℤ
  deriving DecidableEq

/-- `self.metric_aliases.get(name, 0)` over the same fixed table as the
single-device simulator. -/
def metric_aliases_get (name : String) : Nat :=
  if name = "WaterLevel" then 1
  else if name = "BatteryVoltage" then 3
  else if name = "SignalStrength" then 4
  else 0

/-- A metric dictionary as built by
`SparkplugBDevice.create_sparkplug_metric`: it always carries name,
alias, timestamp, data type (kept as the string passed in) and value,
plus the optional `properties` (engineering units / description). -/
structure MMetric where
  name : String
  aliasNum : Nat
  timestamp : ℚ
  dataType : String
  value : ℚ
  engUnits : Option String
  descr : Option String
  deriving DecidableEq

/-- `create_sparkplug_metric(name, value, data_type, engineering_units,
description)` of the multi-device Sparkplug simulator (no NBIRTH/NDATA
mode switch: every metric is fully described). -/
def create_sparkplug_metric (name : String) (value : ℚ) (data_type : String)
    (engineering_units descr : Option String) (ts : ℚ) : MMetric :=
  { name := name, aliasNum := metric_aliases_get name, timestamp := ts,
    dataType := data_type, value := value,
    engUnits := engineering_units, descr := descr }

/-- A payload dictionary of `generate_sparkplug_payload`:
`{"timestamp": ..., "metrics": [...], "seq": ...}`. -/
structure MPayload where
  timestamp : ℚ
  metrics : List MMetric
  seq : Nat
  deriving DecidableEq

/-- `generate_sparkplug_payload`: sine-plus-noise level clamped to
`[0.0, 5.0]`, three fully-described metrics (water level in cm, battery
voltage clamped to `[3.0, 4.2]`, signal strength clamped to
`[-100, -30]`), the current `seq`, then the counter advances. -/
def generate_sparkplug_payload (device_index : Nat) (location : String)
    (base_water_level : ℚ) (t : MTick) (s : MState) : MState × MPayload :=
  let sine_wave := t.sinv * max_variation device_index * (4 / 5)
  let level := base_water_level + sine_wave + t.noise
  let level2 := max 0 (min 5 level)
  let water_level_cm := level2 * 100
  let base_voltage := 18 / 5 + (device_index : ℚ) * (1 / 10)
  let battery_voltage := roundTo 2 (base_voltage + t.battRand)
  let battery_voltage2 := max 3 (min (21 / 5) battery_voltage)
  let base_signal : ℤ := -70 + (device_index : ℤ) * 5
  let signal_strength := base_signal + t.sigRand
  let signal_strength2 := max (-100) (min (-30) signal_strength)
  let metrics :=
    [ create_sparkplug_metric "WaterLevel" (roundTo 2 water_level_cm) "Float"
        (some "CENTIMETER")
        (some ("Water level measurement at " ++ location)) t.now,
      create_sparkplug_metric "BatteryVoltage" battery_voltage2 "Float"
        (some "VOLT")
        (some ("Battery voltage for device at " ++ location)) t.now,
      create_sparkplug_metric "SignalStrength" (signal_strength2 : ℚ) "Int32"
        (some "DBM")
        (some ("RSSI for device at " ++ location)) t.now ]
  ( { currentLevel := level2, seqNumber := nextSeq s.seqNumber },
    { timestamp := t.now, metrics := metrics, seq := s.seqNumber } )

/-- One published MQTT message of `SparkplugBDevice.run_simulation`.
The loop publishes each generated payload to the device's plain
telemetry topic; the class has no birth-frame step at all, so every
emission is a data frame. -/
structure Msg where
  kind : SpMsgKind
  topic : String
  payload : MPayload
  deriving DecidableEq

/-- The tick loop of `SparkplugBDevice.run_simulation`: one data payload
publish per iteration, threading the state (a shorter input list models
an earlier loop exit). -/
def run_emissions (device_index : Nat) (location topic : String)
    (base_water_level : ℚ) (s : MState) : List MTick → List Msg
  | [] => []
  | t :: ts =>
      let r := generate_sparkplug_payload device_index location
        base_water_level t s
      { kind := SpMsgKind.ndata, topic := topic, payload := r.2 } ::
        run_emissions device_index location topic base_water_level r.1 ts

end SparkMulti

namespace BasicSim

/-- `self.base_water_level = 1.5` (meters). -/
def base_water_level : ℚ := 3 / 2

/-- Per-tick inputs of `WaterLevelSimulator.generate_water_level_data`:
ISO timestamp string, the value of `math.sin(time.time() / 100)`, the
`random.uniform(-0.05, 0.05)` noise and the auxiliary uniform draws. -/
structure Tick where
  timestamp : String
  sinv : ℚ
  noise : ℚ
  tempR : ℚ
  humidR : ℚ
  battR : ℚ
  sigR : ℤ
  deriving DecidableEq

/-- `self.current_level = self.base_water_level + sine_wave + random_noise`
before the clamp, with `sine_wave = math.sin(time.time()/100) * 0.1`. -/
def pre_clamp_level (t : Tick) : ℚ := base_water_level + t.sinv * (1 / 10) + t.noise

/-- `self.current_level = max(0.0, min(3.0, self.current_level))`. -/
def new_level (t : Tick) : ℚ := max 0 (min 3 (pre_clamp_level t))

/-- The JSON object built by `generate_water_level_data`. -/
structure SensorData where
  deviceId : String
  timestamp : String
  waterLevel : ℚ
  temperature : ℚ
  humidity : ℚ
  batteryLevel : ℚ
  signalStrength : ℤ
  status : String
  deriving DecidableEq

/-- `generate_water_level_data`: clamped sine-plus-noise level plus
stateless auxiliary resamples; `status` is the literal `"normal"`. -/
def generate_water_level_data (device_id : String) (t : Tick) : SensorData :=
  { deviceId := device_id, timestamp := t.timestamp,
    waterLevel := roundTo 3 (new_level t),
    temperature := roundTo 1 t.tempR,
    humidity := roundTo 1 t.humidR,
    batteryLevel := roundTo 1 t.battR,
    signalStrength := t.sigR,
    status := "normal" }

/-- The key set of the dictionary literal in `generate_water_level_data`,
in source order. -/
def data_keys : List String :=
  ["deviceId", "timestamp", "waterLevel", "temperature", "humidity",
   "batteryLevel", "signalStrength", "status"]

/-- Tick-loop actions of `start_simulation` (same per-iteration shape as
the Sparkplug runner: publish, then either continue or abort on a raised
exception). -/
def loop_acts : List TickEv → List Act
  | [] => []
  | TickEv.ok :: es => Act.publish :: loop_acts es
  | _ :: _ => [Act.publish]

/-- Transport-action trace of `WaterLevelSimulator.start_simulation`:
failed connect returns immediately; otherwise the loop runs inside
`try:` and the `finally:` block always issues the disconnect. -/
def run_actions (connect_ok : Bool) (evs : List TickEv) : List Act :=
  if connect_ok then (Act.connect :: loop_acts evs) ++ [Act.disconnect]
  else []

end BasicSim

namespace MultiSim

/-- `self.max_variation = 0.2 + (device_index * 0.1)`. -/
def max_variation (device_index : Nat) : ℚ := 1 / 5 + (device_index : ℚ) * (1 / 10)

/-- `["normal", "normal", "normal", "warning"]`, the argument of
`random.choice` for the `status` field. -/
def status_choices : List String := ["normal", "normal", "normal", "warning"]

/-- Per-tick inputs of `WaterLevelDevice.generate_sensor_data`: ISO
timestamp, the value of `math.sin(time_factor + phase_shift)`, the
`random.uniform(-0.03, 0.03)` noise, the auxiliary uniform/randint draws,
the `random.choice` index for `status`, and the
`random.uniform(0.85, 1.0)` data-quality draw. -/
structure Tick where
  timestamp : String
  sinv : ℚ
  noise : ℚ
  tempR : ℚ
  humidR : ℚ
  battR : ℚ
  sigR : ℤ
  pressR : ℚ
  phR : ℚ
  statusIdx : Fin 4
  dq : ℚ
  deriving DecidableEq

/-- The clamped water level of `generate_sensor_data`:
`max(0.0, min(5.0, base + sin(...) * max_variation * 0.7 + noise))`. -/
def new_level (device_index : Nat) (base_water_level : ℚ) (t : Tick) : ℚ :=
  max 0 (min 5 (base_water_level + t.sinv * max_variation device_index * (7 / 10) + t.noise))

/-- The JSON object built by `generate_sensor_data`. -/
structure SensorData where
  deviceId : String
  deviceIndex : Nat
  location : String
  timestamp : String
  waterLevel : ℚ
  temperature : ℚ
  humidity : ℚ
  batteryLevel : ℚ
  signalStrength : ℤ
  pressure : ℚ
  ph : ℚ
  status : String
  dataQuality : ℚ
  deriving DecidableEq

/-- `generate_sensor_data`: device-offset sine level clamped to
`[0.0, 5.0]` plus the full auxiliary field set, including pressure, pH,
a status drawn from `status_choices` and the data-quality draw. -/
def generate_sensor_data (device_index : Nat) (device_id location : String)
    (base_water_level : ℚ) (t : Tick) : SensorData :=
  let temp_offset : ℚ := (device_index : ℚ) * 2
  let humidity_offset : ℚ := (device_index : ℚ) * 5
  { deviceId := device_id, deviceIndex := device_index, location := location,
    timestamp := t.timestamp,
    waterLevel := roundTo 3 (new_level device_index base_water_level t),
    temperature := roundTo 1 (20 + temp_offset + t.tempR),
    humidity := roundTo 1 (65 + humidity_offset + t.humidR),
    batteryLevel := roundTo 1 t.battR,
    signalStrength := t.sigR,
    pressure := roundTo 2 (4053 / 4 + t.pressR),
    ph := roundTo 2 (7 + t.phR),
    status := status_choices.getD t.statusIdx.val "normal",
    dataQuality := t.dq }

/-- The key set of the dictionary literal in `generate_sensor_data`, in
source order. -/
def data_keys : List String :=
  ["deviceId", "deviceIndex", "location", "timestamp", "waterLevel",
   "temperature", "humidity", "batteryLevel", "signalStrength",
   "pressure", "ph", "status", "dataQuality"]

/-- Tick-loop actions of `run_simulation` (publish each iteration; abort
on a raised exception). -/
def loop_acts : List TickEv → List Act
  | [] => []
  | TickEv.ok :: es => Act.publish :: loop_acts es
  | _ :: _ => [Act.publish]

/-- Transport-action trace of `WaterLevelDevice.run_simulation`: failed
connect returns immediately; otherwise the loop runs inside `try:` and
the `finally:` block always issues the disconnect. -/
def run_actions (connect_ok : Bool) (evs : List TickEv) : List Act :=
  if connect_ok then (Act.connect :: loop_acts evs) ++ [Act.disconnect]
  else []

end MultiSim

/-- The eleven telemetry fields the specification requires of a
simple-protocol publish.  Modelled from the spec's words (refinement
comparator for the field-set claim), not from the source. -/
def spec_telemetry_fields : List String :=
  ["deviceId", "timestamp", "waterLevel", "temperature", "humidity",
   "batteryLevel", "signalStrength", "pressure", "ph", "status",
   "dataQuality"]

/-- The sequence-number values carried by `n` consecutive payloads of one
device whose counter currently holds `s`. -/
def seq_from (s : Nat) : Nat → List Nat
  | 0 => []
  | n + 1 => s :: seq_from (nextSeq s) n

theorem nextSeq_lt_256 {s : Nat} (h : s < 256) : nextSeq s < 256 := by
  unfold nextSeq; split <;> omega

theorem nextSeq_eq_mod {s : Nat} (h : s < 256) : nextSeq s = (s + 1) % 256 := by
  unfold nextSeq; split <;> omega

theorem chain_seq_from : ∀ (n s : Nat), s < 256 →
    List.Chain' (fun a b => b = (a + 1) % 256) (seq_from s n)
  | 0, _, _ => List.chain'_nil
  | 1, s, _ => by simp [seq_from]
  | n + 2, s, h => by
      rw [seq_from, seq_from, List.chain'_cons]
      exact ⟨nextSeq_eq_mod h,
        chain_seq_from (n + 1) (nextSeq s) (nextSeq_lt_256 h)⟩

namespace SparkSingle

theorem create_ndata_seq (t : TickIn) (s : SimState) :
    (create_ndata_payload t s).2.seq = s.seqNumber := rfl

theorem create_ndata_seqNumber (t : TickIn) (s : SimState) :
    (create_ndata_payload t s).1.seqNumber = nextSeq s.seqNumber := rfl

theorem map_seq_run_ndata (community device : String) :
    ∀ (ticks : List TickIn) (s : SimState),
      (run_ndata_frames community device s ticks).map (fun m => m.payload.seq)
        = seq_from s.seqNumber ticks.length
  | [], _ => rfl
  | t :: ts, s => by
      simp only [run_ndata_frames, List.map_cons, List.length_cons, seq_from,
        create_ndata_seq, create_ndata_seqNumber,
        map_seq_run_ndata community device ts]

theorem map_seq_run_emissions (community device : String) (b : BirthIn)
    (ticks : List TickIn) :
    (run_emissions community device b ticks).map (fun m => m.payload.seq)
      = seq_from 0 (ticks.length + 1) := by
  simp only [run_emissions, List.map_cons,
    map_seq_run_ndata community device ticks]
  rfl

end SparkSingle

namespace SparkMulti

theorem gen_seq (device_index : Nat) (location : String) (base : ℚ)
    (t : MTick) (s : MState) :
    (generate_sparkplug_payload device_index location base t s).2.seq
      = s.seqNumber := rfl

theorem gen_seqNumber (device_index : Nat) (location : String) (base : ℚ)
    (t : MTick) (s : MState) :
    (generate_sparkplug_payload device_index location base t s).1.seqNumber
      = nextSeq s.seqNumber := rfl

theorem map_seq_data_frames (device_index : Nat) (location topic : String)
    (base : ℚ) :
    ∀ (ticks : List MTick) (s : MState),
      (run_emissions device_index location topic base s ticks).map
          (fun m => m.payload.seq)
        = seq_from s.seqNumber ticks.length
  | [], _ => rfl
  | t :: ts, s => by
      simp only [run_emissions, List.map_cons, List.length_cons, seq_from,
        gen_seq, gen_seqNumber,
        map_seq_data_frames device_index location topic base ts]

end SparkMulti

/-- Claim C1: for every device and every pair of consecutively emitted
Sparkplug payloads (NBIRTH or NDATA), the `seq` of the later payload is
`(seq of the earlier + 1) mod 256`: the 8-bit counter wraps 255 to 0 and
never skips or repeats.  First conjunct: the single-device simulator's
full NBIRTH-then-NDATA emission sequence.  Second conjunct: the
multi-device Sparkplug device's emission sequence, from any starting
counter below 256 (the source starts it at the device index). -/
theorem c1_seq_consecutive :
    (∀ (community device : String) (b : SparkSingle.BirthIn)
        (ticks : List SparkSingle.TickIn),
      List.Chain' (fun a b2 => b2 = (a + 1) % 256)
        ((SparkSingle.run_emissions community device b ticks).map
          (fun m => m.payload.seq)))
    ∧ (∀ (device_index : Nat) (location topic : String) (base : ℚ)
        (s : SparkMulti.MState) (ticks : List SparkMulti.MTick),
      s.seqNumber < 256 →
      List.Chain' (fun a b2 => b2 = (a + 1) % 256)
        ((SparkMulti.run_emissions device_index location topic base s
          ticks).map (fun m => m.payload.seq))) := by
  constructor
  · intro community device b ticks
    rw [SparkSingle.map_seq_run_emissions]
    exact chain_seq_from _ 0 (by norm_num)
  · intro device_index location topic base s ticks h
    rw [SparkMulti.map_seq_data_frames]
    exact chain_seq_from _ _ h

/-- Claim C1 witness: the consecutive-seq property at a concrete run of
each variant (single device: one NBIRTH plus one NDATA; multi device:
device index 1, two NDATA frames). -/
theorem c1_seq_consecutive_witness :
    List.Chain' (fun a b2 => b2 = (a + 1) % 256)
      ((SparkSingle.run_emissions "1" "dev" ⟨4, -70⟩
        [⟨0, false, 0, 0, 0, 4, -70⟩]).map (fun m => m.payload.seq))
    ∧ List.Chain' (fun a b2 => b2 = (a + 1) % 256)
      ((SparkMulti.run_emissions 1 "Site A" "tenants/2/telemetry" (3 / 2)
        ⟨3 / 2, 1⟩ [⟨0, 0, 0, 0, 0⟩, ⟨5, 0, 0, 0, 0⟩]).map
          (fun m => m.payload.seq)) :=
  ⟨c1_seq_consecutive.1 "1" "dev" ⟨4, -70⟩ [⟨0, false, 0, 0, 0, 4, -70⟩],
    c1_seq_consecutive.2 1 "Site A" "tenants/2/telemetry" (3 / 2)
      ⟨3 / 2, 1⟩ [⟨0, 0, 0, 0, 0⟩, ⟨5, 0, 0, 0, 0⟩] (by norm_num)⟩

theorem SparkSingle.kinds_run_ndata (community device : String) :
    ∀ (ticks : List TickIn) (s : SimState),
      (run_ndata_frames community device s ticks).map (fun m => m.kind)
        = List.replicate ticks.length SpMsgKind.ndata
  | [], _ => rfl
  | t :: ts, s => by
      simp only [run_ndata_frames, List.map_cons, List.length_cons,
        List.replicate_succ, kinds_run_ndata community device ts]

theorem SparkMulti.nbirth_not_emitted (device_index : Nat)
    (location topic : String) (base : ℚ) :
    ∀ (ticks : List MTick) (s : MState),
      SpMsgKind.nbirth ∉
        (run_emissions device_index location topic base s ticks).map
          (fun m => m.kind)
  | [], _ => by simp [run_emissions]
  | t :: ts, s => by
      simp only [run_emissions, List.map_cons, List.mem_cons, not_or]
      exact ⟨by simp, nbirth_not_emitted device_index location topic base ts _⟩

/-- Claim C2 counterexample: a session of the multi-device Sparkplug
device (`SparkplugBDevice.run_simulation`) contains no birth frame at
all.  At the concrete configuration of device 1 with a single loop tick,
the first (and only) emitted frame is a data frame, and no NBIRTH frame
occurs anywhere in the session. -/
theorem c2_counterexample_no_birth_frame :
    ((SparkMulti.run_emissions 1 "Site A"
        "tenants/2/devices/9d3e50ea/telemetry" (3 / 2) ⟨3 / 2, 1⟩
        [⟨0, 0, 0, 0, 0⟩]).map (fun m => m.kind)).head?
      = some SpMsgKind.ndata
    ∧ SpMsgKind.nbirth ∉
      ((SparkMulti.run_emissions 1 "Site A"
        "tenants/2/devices/9d3e50ea/telemetry" (3 / 2) ⟨3 / 2, 1⟩
        [⟨0, 0, 0, 0, 0⟩]).map (fun m => m.kind)) :=
  ⟨rfl, by decide⟩

/-- Claim C2, amended: in the single-device Sparkplug simulator every
session starts with exactly one NBIRTH frame followed only by NDATA
frames; the multi-device Sparkplug simulator, however, never emits a
birth frame — every frame of its session is a data frame. -/
theorem c2_birth_then_data :
    (∀ (community device : String) (b : SparkSingle.BirthIn)
        (ticks : List SparkSingle.TickIn),
      (SparkSingle.run_emissions community device b ticks).map (fun m => m.kind)
        = SpMsgKind.nbirth :: List.replicate ticks.length SpMsgKind.ndata)
    ∧ (∀ (device_index : Nat) (location topic : String) (base : ℚ)
        (s : SparkMulti.MState) (ticks : List SparkMulti.MTick),
      SpMsgKind.nbirth ∉
        (SparkMulti.run_emissions device_index location topic base s
          ticks).map (fun m => m.kind)) := by
  constructor
  · intro community device b ticks
    simp only [SparkSingle.run_emissions, List.map_cons,
      SparkSingle.kinds_run_ndata community device ticks]
  · intro device_index location topic base s ticks
    exact SparkMulti.nbirth_not_emitted device_index location topic base ticks s

theorem SparkSingle.check_level (now : ℚ) (trigger : Bool) (dur : ℚ)
    (s : SimState) :
    ((check_and_update_rain_event now trigger dur s).1).currentLevel
      = s.currentLevel := by
  unfold check_and_update_rain_event
  split <;> split <;> rfl

theorem SparkSingle.create_ndata_level (t : TickIn) (s : SimState) :
    (create_ndata_payload t s).1.currentLevel
      = next_level t ((check_and_update_rain_event t.now t.rain_trigger
          t.sampled_duration s).1) := rfl

theorem SparkSingle.next_level_bounds (t : TickIn) (s1 : SimState)
    (h : 0 ≤ s1.currentLevel) :
    0 ≤ next_level t s1 ∧ next_level t s1 ≤ 3 := by
  unfold next_level
  split
  · have hr : rain_rise_rate * send_interval = 6 / 5 := by
      norm_num [rain_rise_rate, send_interval]
    have ha : alert_level * (3 / 2) = 3 / 2 := by norm_num [alert_level]
    constructor
    · exact le_min (by linarith) (by rw [ha]; norm_num)
    · calc min (s1.currentLevel + rain_rise_rate * send_interval)
            (alert_level * (3 / 2)) ≤ alert_level * (3 / 2) :=
            min_le_right _ _
        _ ≤ 3 := by rw [ha]; norm_num
  · exact ⟨le_max_left 0 _, max_le (by norm_num) (min_le_left 3 _)⟩

theorem SparkSingle.level_trace_bounds :
    ∀ (ticks : List TickIn) (s : SimState), 0 ≤ s.currentLevel →
      ∀ l ∈ level_trace s ticks, 0 ≤ l ∧ l ≤ 3
  | [], _, _, l, hl => by simp [level_trace] at hl
  | t :: ts, s, h, l, hl => by
      have hb := next_level_bounds t
        ((check_and_update_rain_event t.now t.rain_trigger
          t.sampled_duration s).1)
        (by rw [check_level]; exact h)
      rw [← create_ndata_level t s] at hb
      simp only [level_trace, List.mem_cons] at hl
      rcases hl with rfl | hl
      · exact hb
      · exact level_trace_bounds ts _ hb.1 l hl

/-- Claim C3: every tick of every simulator variant produces a water
level inside the variant's clamp range, rain events included.  Conjuncts:
the basic simulator clamps to `[0, 3]`; the multi-device simple simulator
clamps to `[0, 5]`; the multi-device Sparkplug simulator clamps to
`[0, 5]`; and in the single-device Sparkplug simulator (whose rain branch
has no explicit lower clamp) every level produced along any run from the
initial state stays in `[0, 3]`. -/
theorem c3_clamp_invariant :
    (∀ (t : BasicSim.Tick),
      0 ≤ BasicSim.new_level t ∧ BasicSim.new_level t ≤ 3)
    ∧ (∀ (device_index : Nat) (base : ℚ) (t : MultiSim.Tick),
      0 ≤ MultiSim.new_level device_index base t
        ∧ MultiSim.new_level device_index base t ≤ 5)
    ∧ (∀ (device_index : Nat) (location : String) (base : ℚ)
        (t : SparkMulti.MTick) (s : SparkMulti.MState),
      0 ≤ (SparkMulti.generate_sparkplug_payload device_index location base
            t s).1.currentLevel
        ∧ (SparkMulti.generate_sparkplug_payload device_index location base
            t s).1.currentLevel ≤ 5)
    ∧ (∀ (ticks : List SparkSingle.TickIn) (l : ℚ),
      l ∈ SparkSingle.level_trace SparkSingle.initState ticks →
        0 ≤ l ∧ l ≤ 3) := by
  refine ⟨?_, ?_, ?_, ?_⟩
  · intro t
    exact ⟨le_max_left 0 _, max_le (by norm_num) (min_le_left 3 _)⟩
  · intro device_index base t
    exact ⟨le_max_left 0 _, max_le (by norm_num) (min_le_left 5 _)⟩
  · intro device_index location base t s
    have : (SparkMulti.generate_sparkplug_payload device_index location base
        t s).1.currentLevel
      = max 0 (min 5 (base + t.sinv * SparkMulti.max_variation device_index
          * (4 / 5) + t.noise)) := rfl
    rw [this]
    exact ⟨le_max_left 0 _, max_le (by norm_num) (min_le_left 5 _)⟩
  · intro ticks l hl
    exact SparkSingle.level_trace_bounds ticks SparkSingle.initState
      (by norm_num [SparkSingle.initState, SparkSingle.base_water_level]) l hl

/-- Claim C3 witness: the bounds at a concrete tick of the basic
simulator and at the first level of a concrete one-tick run of the
single-device Sparkplug simulator. -/
theorem c3_clamp_invariant_witness :
    (0 ≤ BasicSim.new_level ⟨"ts", 0, 0, 20, 70, 90, -60⟩
      ∧ BasicSim.new_level ⟨"ts", 0, 0, 20, 70, 90, -60⟩ ≤ 3)
    ∧ (0 ≤ (SparkSingle.create_ndata_payload ⟨0, false, 0, 0, 0, 4, -70⟩
          SparkSingle.initState).1.currentLevel
      ∧ (SparkSingle.create_ndata_payload ⟨0, false, 0, 0, 0, 4, -70⟩
          SparkSingle.initState).1.currentLevel ≤ 3) :=
  ⟨c3_clamp_invariant.1 ⟨"ts", 0, 0, 20, 70, 90, -60⟩,
    c3_clamp_invariant.2.2.2 [⟨0, false, 0, 0, 0, 4, -70⟩]
      (SparkSingle.create_ndata_payload ⟨0, false, 0, 0, 0, 4, -70⟩
        SparkSingle.initState).1.currentLevel
      (List.mem_cons_self _ _)⟩

/-- Claim C4 counterexample: the claim fails in both Sparkplug variants.
First conjunct: at the concrete first payload of multi-device device 1,
it is false that all metrics carry only alias, value and timestamp — the
metrics carry engineering-units and description properties (and names
and data types, by construction of `SparkMulti.create_sparkplug_metric`).
Second conjunct: at a concrete tick of the single-device simulator, each
of the three metrics the emitted NDATA frame actually carries (built by
`sparkplug_b.addMetric(payload, "", alias, MetricDataType.Float, value)`,
lines 396-401) passes the `Float` data-type declaration to the encoder —
the same data-type metadata the NBIRTH frame declared, so data-type
metadata does not appear only in NBIRTH. -/
theorem c4_counterexample_metadata_in_data_frame :
    (¬ ∀ m ∈ (SparkMulti.generate_sparkplug_payload 1 "Site A" (3 / 2)
        ⟨0, 0, 0, 0, 0⟩ ⟨3 / 2, 1⟩).2.metrics,
      (m.engUnits = none ∧ m.descr = none))
    ∧ ((SparkSingle.create_ndata_payload ⟨0, false, 0, 0, 0, 4, -70⟩
          SparkSingle.initState).2.metrics.map (fun m => m.dataType)
        = [MetricDataType.float, MetricDataType.float,
           MetricDataType.float]) := by
  exact ⟨by decide, rfl⟩

/-- Claim C4, amended: in the single-device Sparkplug simulator's emitted
frames, metric names appear only in the NBIRTH frame — every NDATA
metric is passed to the encoder with an empty name, no unit and no
description, only alias and value — but each NDATA metric does still
pass its data-type declaration (`Float`), so data-type metadata is
repeated in every NDATA frame (first three conjuncts: NDATA names empty,
NDATA data types Float, NBIRTH names/aliases full).  The file's dict
helper `create_sparkplug_metric` (uncalled by the payload builders)
likewise emits only alias, timestamp and value in NDATA mode and full
metadata in NBIRTH mode (next two conjuncts).  The multi-device
Sparkplug simulator, however, repeats name, data type, unit and
description in every emitted data metric (last conjunct). -/
theorem c4_metric_metadata :
    (∀ (t : SparkSingle.TickIn) (s : SparkSingle.SimState),
      ((SparkSingle.create_ndata_payload t s).2.metrics.map
          (fun m => m.name) = ["", "", ""])
      ∧ ((SparkSingle.create_ndata_payload t s).2.metrics.map
          (fun m => m.dataType)
        = [MetricDataType.float, MetricDataType.float, MetricDataType.float])
      ∧ ((SparkSingle.create_ndata_payload t s).2.metrics.map
          (fun m => m.aliasNum) = [1, 3, 4]))
    ∧ (∀ (b : SparkSingle.BirthIn) (s : SparkSingle.SimState),
      ((SparkSingle.create_nbirt_payload b s).2.metrics.map
          (fun m => m.name)
        = ["WaterLevel", "BatteryVoltage", "SignalStrength"])
      ∧ ((SparkSingle.create_nbirt_payload b s).2.metrics.map
          (fun m => m.aliasNum) = [1, 3, 4]))
    ∧ (∀ (name : String) (v : ℚ) (dt : String) (u d : Option String)
        (ts : ℚ),
      ((SparkSingle.create_sparkplug_metric name v dt u d false ts).name
          = none
        ∧ (SparkSingle.create_sparkplug_metric name v dt u d false
            ts).dataType = none
        ∧ (SparkSingle.create_sparkplug_metric name v dt u d false
            ts).engUnits = none
        ∧ (SparkSingle.create_sparkplug_metric name v dt u d false ts).descr
            = none)
      ∧ ((SparkSingle.create_sparkplug_metric name v dt u d true ts).name
            = some name
        ∧ (SparkSingle.create_sparkplug_metric name v dt u d true
            ts).dataType = some (SparkSingle.type_mapping dt)
        ∧ (SparkSingle.create_sparkplug_metric name v dt u d true
            ts).engUnits = u
        ∧ (SparkSingle.create_sparkplug_metric name v dt u d true ts).descr
            = d)
      ∧ ((SparkMulti.create_sparkplug_metric name v dt u d ts).name = name
        ∧ (SparkMulti.create_sparkplug_metric name v dt u d ts).dataType = dt
        ∧ (SparkMulti.create_sparkplug_metric name v dt u d ts).engUnits = u
        ∧ (SparkMulti.create_sparkplug_metric name v dt u d ts).descr
            = d)) := by
  refine ⟨fun t s => ⟨rfl, rfl, rfl⟩, fun b s => ⟨rfl, rfl⟩, ?_⟩
  intro name v dt u d ts
  exact ⟨⟨rfl, rfl, rfl, rfl⟩, ⟨rfl, rfl, rfl, rfl⟩, rfl, rfl, rfl, rfl⟩

theorem SparkSingle.check_stay_active (now : ℚ) (trigger : Bool) (dur : ℚ)
    {s : SimState} (h : s.rainActive = true)
    (h2 : ¬ s.rainDuration ≤ now - s.rainStart) :
    (check_and_update_rain_event now trigger dur s).1 = s := by
  simp [check_and_update_rain_event, h, h2]

/-- Claim C5: once the rain-event state machine is in `Raining`, (a) on
any tick taken strictly before the sampled duration elapses, and absent
saturation at the `alert_level * 1.5` cap, the water level does not
decrease, and (b) the transition back to `Idle` happens on a tick exactly
when the elapsed time reaches the duration sampled at entry, never
before; moreover (c) entering `Raining` records the current time and the
sampled duration. -/
theorem c5_rain_monotone_and_exit :
    ∀ (s : SparkSingle.SimState) (t : SparkSingle.TickIn),
    (s.rainActive = true →
      (t.now - s.rainStart < s.rainDuration →
        s.currentLevel ≤ SparkSingle.alert_level * (3 / 2) →
        s.currentLevel
          ≤ (SparkSingle.create_ndata_payload t s).1.currentLevel)
      ∧ ((SparkSingle.check_and_update_rain_event t.now t.rain_trigger
            t.sampled_duration s).1.rainActive = false
          ↔ s.rainDuration ≤ t.now - s.rainStart))
    ∧ (s.rainActive = false → t.rain_trigger = true →
        (SparkSingle.check_and_update_rain_event t.now t.rain_trigger
          t.sampled_duration s).1
        = ⟨true, t.now, t.sampled_duration, s.currentLevel,
            s.seqNumber⟩) := by
  intro s t
  constructor
  · intro h
    constructor
    · intro hlt hcap
      have hstay := SparkSingle.check_stay_active t.now t.rain_trigger
        t.sampled_duration h (not_le.mpr hlt)
      rw [SparkSingle.create_ndata_level, hstay]
      unfold SparkSingle.next_level
      rw [if_pos h]
      have hr : SparkSingle.rain_rise_rate * SparkSingle.send_interval
          = 6 / 5 := by
        norm_num [SparkSingle.rain_rise_rate, SparkSingle.send_interval]
      exact le_min (by linarith) hcap
    · constructor
      · intro hfalse
        by_contra hc
        rw [SparkSingle.check_stay_active t.now t.rain_trigger
          t.sampled_duration h hc, h] at hfalse
        exact Bool.noConfusion hfalse
      · intro hc
        simp [SparkSingle.check_and_update_rain_event, h, hc]
  · intro h htr
    simp [SparkSingle.check_and_update_rain_event, h, htr]

/-- Claim C5 witness: a concrete raining state (duration 200 s, level
1.4 m, below the cap) taken at second 1.5 of the event does not lose
water, and its deactivation on a tick is equivalent to 200 s having
elapsed. -/
theorem c5_rain_monotone_and_exit_witness :
    ((7 / 5 : ℚ)
        ≤ (SparkSingle.create_ndata_payload ⟨3 / 2, false, 0, 0, 0, 4, -70⟩
            ⟨true, 0, 200, 7 / 5, 7⟩).1.currentLevel)
    ∧ ((SparkSingle.check_and_update_rain_event (3 / 2) false 0
          ⟨true, 0, 200, 7 / 5, 7⟩).1.rainActive = false
        ↔ (200 : ℚ) ≤ 3 / 2 - 0) :=
  ⟨((c5_rain_monotone_and_exit ⟨true, 0, 200, 7 / 5, 7⟩
      ⟨3 / 2, false, 0, 0, 0, 4, -70⟩).1 rfl).1 (by norm_num)
      (by norm_num [SparkSingle.alert_level]),
    ((c5_rain_monotone_and_exit ⟨true, 0, 200, 7 / 5, 7⟩
      ⟨3 / 2, false, 0, 0, 0, 4, -70⟩).1 rfl).2⟩

/-- Claim C6 counterexample: the basic single-device simulator publishes
plain JSON telemetry whose object has no `pressure`, `ph` or
`dataQuality` field at all (its keys are exactly the eight of
`BasicSim.data_keys`), so not every simple-protocol publish carries the
eleven claimed fields. -/
theorem c6_counterexample_basic_missing_fields :
    "pressure" ∉ BasicSim.data_keys ∧ "ph" ∉ BasicSim.data_keys
      ∧ "dataQuality" ∉ BasicSim.data_keys := by decide

theorem MultiSim.status_getD_cases (i : Fin 4) :
    status_choices.getD i.val "normal" = "normal"
      ∨ status_choices.getD i.val "normal" = "warning" := by
  fin_cases i <;> simp [status_choices]

/-- Claim C6, amended: the multi-device simple-protocol simulator's
telemetry object carries all eleven claimed fields (plus `deviceIndex`
and `location`), its `status` is always `normal` or `warning`, and its
`dataQuality` (a pass-through of the `uniform(0.85, 1.0)` draw) lies in
`[0, 1]`; the basic single-device simulator's object carries only
`deviceId, timestamp, waterLevel, temperature, humidity, batteryLevel,
signalStrength, status`, with `status` always `normal`. -/
theorem c6_telemetry_fields :
    spec_telemetry_fields ⊆ MultiSim.data_keys
    ∧ BasicSim.data_keys
        = ["deviceId", "timestamp", "waterLevel", "temperature", "humidity",
           "batteryLevel", "signalStrength", "status"]
    ∧ (∀ (device_index : Nat) (device_id location : String) (base : ℚ)
        (t : MultiSim.Tick),
        (MultiSim.generate_sensor_data device_index device_id location base
            t).status = "normal"
        ∨ (MultiSim.generate_sensor_data device_index device_id location base
            t).status = "warning")
    ∧ (∀ (device_id : String) (t : BasicSim.Tick),
        (BasicSim.generate_water_level_data device_id t).status = "normal")
    ∧ (∀ (device_index : Nat) (device_id location : String) (base : ℚ)
        (t : MultiSim.Tick), 17 / 20 ≤ t.dq → t.dq ≤ 1 →
        0 ≤ (MultiSim.generate_sensor_data device_index device_id location
              base t).dataQuality
        ∧ (MultiSim.generate_sensor_data device_index device_id location
            base t).dataQuality ≤ 1) := by
  refine ⟨by decide, rfl, ?_, ?_, ?_⟩
  · intro device_index device_id location base t
    exact MultiSim.status_getD_cases t.statusIdx
  · intro device_id t
    rfl
  · intro device_index device_id location base t h1 h2
    have hdq : (MultiSim.generate_sensor_data device_index device_id location
        base t).dataQuality = t.dq := rfl
    rw [hdq]
    exact ⟨by linarith, h2⟩

/-- Claim C6 witness: the data-quality bounds of the amended claim at a
concrete multi-device tick with `dq = 0.9`. -/
theorem c6_telemetry_fields_witness :
    0 ≤ (MultiSim.generate_sensor_data 1 "9d3e50ea" "Site A" (3 / 2)
          ⟨"ts", 0, 0, 0, 0, 90, -60, 0, 0, 0, 9 / 10⟩).dataQuality
    ∧ (MultiSim.generate_sensor_data 1 "9d3e50ea" "Site A" (3 / 2)
        ⟨"ts", 0, 0, 0, 0, 90, -60, 0, 0, 0, 9 / 10⟩).dataQuality ≤ 1 :=
  c6_telemetry_fields.2.2.2.2 1 "9d3e50ea" "Site A" (3 / 2)
    ⟨"ts", 0, 0, 0, 0, 90, -60, 0, 0, 0, 9 / 10⟩ (by norm_num) (by norm_num)

theorem SparkSingle.check_inactive (now : ℚ) (trigger : Bool) (dur : ℚ)
    {s : SimState} (h : s.rainActive = false) (h2 : trigger = false) :
    (check_and_update_rain_event now trigger dur s).1 = s := by
  simp [check_and_update_rain_event, h, h2]

theorem SparkSingle.next_level_normal (t : TickIn) (s1 : SimState)
    (h : s1.rainActive = false) :
    next_level t s1
      = max 0 (min 3
          (if base_water_level + t.sinv * (1 / 10) + t.noise
              < s1.currentLevel then
            max (base_water_level + t.sinv * (1 / 10) + t.noise)
              (s1.currentLevel - descent_rate)
          else base_water_level + t.sinv * (1 / 10) + t.noise)) := by
  simp [next_level, h]

/-- Claim C7: with the rain event idle (and not re-triggering this tick),
whenever the current level is strictly above the oscillation target
`base + sin * 0.1 + noise`, one tick moves the level down but by at most
`descent_rate`, never below the target (first conjunct); once the level
is at or below the target, the level equals the target again — normal
oscillation resumes (second conjunct).  The side conditions
`0 ≤ target` and `≤ 3` keep the final `[0, 3]` clamp from interfering
and hold for every reachable input. -/
theorem c7_decay_bounded :
    ∀ (s : SparkSingle.SimState) (t : SparkSingle.TickIn),
    s.rainActive = false → t.rain_trigger = false →
    ((SparkSingle.base_water_level + t.sinv * (1 / 10) + t.noise
        < s.currentLevel →
      0 ≤ SparkSingle.base_water_level + t.sinv * (1 / 10) + t.noise →
      s.currentLevel ≤ 3 →
      (SparkSingle.base_water_level + t.sinv * (1 / 10) + t.noise
          ≤ (SparkSingle.create_ndata_payload t s).1.currentLevel
        ∧ (SparkSingle.create_ndata_payload t s).1.currentLevel
            < s.currentLevel
        ∧ s.currentLevel
            - (SparkSingle.create_ndata_payload t s).1.currentLevel
            ≤ SparkSingle.descent_rate))
    ∧ (s.currentLevel
          ≤ SparkSingle.base_water_level + t.sinv * (1 / 10) + t.noise →
        0 ≤ SparkSingle.base_water_level + t.sinv * (1 / 10) + t.noise →
        SparkSingle.base_water_level + t.sinv * (1 / 10) + t.noise ≤ 3 →
        (SparkSingle.create_ndata_payload t s).1.currentLevel
          = SparkSingle.base_water_level + t.sinv * (1 / 10) + t.noise)) := by
  intro s t h htr
  have hch := SparkSingle.check_inactive t.now t.rain_trigger
    t.sampled_duration h htr
  have hdpos : 0 < SparkSingle.descent_rate := by
    norm_num [SparkSingle.descent_rate, SparkSingle.send_interval]
  constructor
  · intro hlt h0 h3
    rw [SparkSingle.create_ndata_level, hch,
      SparkSingle.next_level_normal t s h, if_pos hlt]
    have h1 : max (SparkSingle.base_water_level + t.sinv * (1 / 10) + t.noise)
        (s.currentLevel - SparkSingle.descent_rate) ≤ 3 :=
      max_le (by linarith) (by linarith)
    have h0' : 0 ≤ max (SparkSingle.base_water_level + t.sinv * (1 / 10)
        + t.noise) (s.currentLevel - SparkSingle.descent_rate) :=
      le_trans h0 (le_max_left _ _)
    rw [min_eq_right h1, max_eq_right h0']
    refine ⟨le_max_left _ _, max_lt hlt (by linarith), ?_⟩
    have hmr := le_max_right (SparkSingle.base_water_level
      + t.sinv * (1 / 10) + t.noise)
      (s.currentLevel - SparkSingle.descent_rate)
    linarith
  · intro hle h0 h3
    rw [SparkSingle.create_ndata_level, hch,
      SparkSingle.next_level_normal t s h, if_neg (not_lt.mpr hle)]
    rw [min_eq_right h3, max_eq_right h0]

/-- Claim C7 witness: the bounded-descent conclusion at a concrete idle
state whose level 1.6 m sits above the concrete target 1.5 m. -/
theorem c7_decay_bounded_witness :
    SparkSingle.base_water_level + (0 : ℚ) * (1 / 10) + 0
        ≤ (SparkSingle.create_ndata_payload ⟨0, false, 0, 0, 0, 4, -70⟩
            ⟨false, 0, 0, 8 / 5, 0⟩).1.currentLevel
    ∧ (SparkSingle.create_ndata_payload ⟨0, false, 0, 0, 0, 4, -70⟩
          ⟨false, 0, 0, 8 / 5, 0⟩).1.currentLevel < 8 / 5
    ∧ (8 / 5 : ℚ)
        - (SparkSingle.create_ndata_payload ⟨0, false, 0, 0, 0, 4, -70⟩
            ⟨false, 0, 0, 8 / 5, 0⟩).1.currentLevel
        ≤ SparkSingle.descent_rate :=
  (c7_decay_bounded ⟨false, 0, 0, 8 / 5, 0⟩ ⟨0, false, 0, 0, 0, 4, -70⟩
    rfl rfl).1
    (by norm_num [SparkSingle.base_water_level])
    (by norm_num [SparkSingle.base_water_level])
    (by norm_num)

/-- Claim C8: whenever a device runner's tick loop exits — normal
completion or deadline timeout (exhausted event list), interrupt, or
error — the transport disconnect is the last action before the run
method returns, in all three runner variants (single-device Sparkplug,
basic simple, multi-device simple).  The `connect_ok = true` hypothesis
restricts to runs whose loop actually started; a failed connect returns
before the loop without disconnecting. -/
theorem c8_disconnect_on_exit :
    ∀ (connect_ok : Bool) (evs1 evs2 evs3 : List TickEv),
    connect_ok = true →
    (SparkSingle.run_actions connect_ok evs1).getLast? = some Act.disconnect
    ∧ (BasicSim.run_actions connect_ok evs2).getLast? = some Act.disconnect
    ∧ (MultiSim.run_actions connect_ok evs3).getLast?
        = some Act.disconnect := by
  intro connect_ok evs1 evs2 evs3 h
  subst h
  refine ⟨?_, ?_, ?_⟩
  · show ((Act.connect :: Act.publish :: SparkSingle.loop_acts evs1)
      ++ [Act.disconnect]).getLast? = some Act.disconnect
    rw [List.getLast?_append_cons]
    rfl
  · show ((Act.connect :: BasicSim.loop_acts evs2)
      ++ [Act.disconnect]).getLast? = some Act.disconnect
    rw [List.getLast?_append_cons]
    rfl
  · show ((Act.connect :: MultiSim.loop_acts evs3)
      ++ [Act.disconnect]).getLast? = some Act.disconnect
    rw [List.getLast?_append_cons]
    rfl

/-- Claim C8 witness: the disconnect-last property at concrete runs — a
normally completing loop, an interrupted loop and an erroring loop. -/
theorem c8_disconnect_on_exit_witness :
    (SparkSingle.run_actions true [TickEv.ok, TickEv.ok]).getLast?
        = some Act.disconnect
    ∧ (BasicSim.run_actions true [TickEv.ok, TickEv.interrupt]).getLast?
        = some Act.disconnect
    ∧ (MultiSim.run_actions true [TickEv.error]).getLast?
        = some Act.disconnect :=
  c8_disconnect_on_exit true [TickEv.ok, TickEv.ok]
    [TickEv.ok, TickEv.interrupt] [TickEv.error] rfl

theorem SparkSingle.metric_aliases_get_unknown {n : String}
    (h1 : n ≠ "WaterLevel") (h2 : n ≠ "BatteryVoltage")
    (h3 : n ≠ "SignalStrength") : metric_aliases_get n = 0 := by
  simp [metric_aliases_get, h1, h2, h3]

theorem SparkMulti.metric_aliases_get_unknown_m {n : String}
    (h1 : n ≠ "WaterLevel") (h2 : n ≠ "BatteryVoltage")
    (h3 : n ≠ "SignalStrength") : metric_aliases_get n = 0 := by
  simp [metric_aliases_get, h1, h2, h3]

theorem SparkSingle.create_metric_aliasNum (name : String) (v : ℚ)
    (dt : String) (u d : Option String) (b : Bool) (ts : ℚ) :
    (create_sparkplug_metric name v dt u d b ts).aliasNum
      = metric_aliases_get name := by
  unfold create_sparkplug_metric
  split <;> rfl

/-- Claim C9: any metric name missing from the alias table
(`WaterLevel ↦ 1, BatteryVoltage ↦ 3, SignalStrength ↦ 4`) is silently
assigned alias 0 by `create_sparkplug_metric`, in both Sparkplug
variants; hence two distinct unknown names collide on alias 0 in the
emitted metrics. -/
theorem c9_unknown_alias_zero :
    ∀ (n1 n2 : String) (v : ℚ) (dt : String) (u d : Option String)
      (b : Bool) (ts : ℚ),
    n1 ∉ ["WaterLevel", "BatteryVoltage", "SignalStrength"] →
    n2 ∉ ["WaterLevel", "BatteryVoltage", "SignalStrength"] →
    n1 ≠ n2 →
    (SparkSingle.create_sparkplug_metric n1 v dt u d b ts).aliasNum = 0
    ∧ (SparkSingle.create_sparkplug_metric n2 v dt u d b ts).aliasNum = 0
    ∧ (SparkMulti.create_sparkplug_metric n1 v dt u d ts).aliasNum
        = (SparkMulti.create_sparkplug_metric n2 v dt u d ts).aliasNum := by
  intro n1 n2 v dt u d b ts h1 h2 hne
  simp only [List.mem_cons, List.not_mem_nil, or_false, not_or] at h1 h2
  have e1 : SparkSingle.metric_aliases_get n1 = 0 :=
    SparkSingle.metric_aliases_get_unknown h1.1 h1.2.1 h1.2.2
  have e2 : SparkSingle.metric_aliases_get n2 = 0 :=
    SparkSingle.metric_aliases_get_unknown h2.1 h2.2.1 h2.2.2
  have m1 : SparkMulti.metric_aliases_get n1 = 0 :=
    SparkMulti.metric_aliases_get_unknown_m h1.1 h1.2.1 h1.2.2
  have m2 : SparkMulti.metric_aliases_get n2 = 0 :=
    SparkMulti.metric_aliases_get_unknown_m h2.1 h2.2.1 h2.2.2
  refine ⟨?_, ?_, ?_⟩
  · rw [SparkSingle.create_metric_aliasNum, e1]
  · rw [SparkSingle.create_metric_aliasNum, e2]
  · show SparkMulti.metric_aliases_get n1 = SparkMulti.metric_aliases_get n2
    rw [m1, m2]

/-- Claim C9 witness: the two distinct unknown names `Temperature` and
`Humidity` both receive alias 0 in both variants. -/
theorem c9_unknown_alias_zero_witness :
    (SparkSingle.create_sparkplug_metric "Temperature" 20 "Float" none none
        false 0).aliasNum = 0
    ∧ (SparkSingle.create_sparkplug_metric "Humidity" 70 "Float" none none
        false 0).aliasNum = 0
    ∧ (SparkMulti.create_sparkplug_metric "Temperature" 20 "Float" none none
        0).aliasNum
      = (SparkMulti.create_sparkplug_metric "Humidity" 70 "Float" none none
        0).aliasNum :=
  c9_unknown_alias_zero "Temperature" "Humidity" 20 "Float" none none false 0
    (by decide) (by decide) (by decide)

/-- Claim C10: in the basic single-device simulator, the pre-clamp level
`base + sin(t/100)*0.1 + uniform(-0.05, 0.05)` always lies in
`[1.35, 1.65]` (given only `|sin| ≤ 1` and the noise bound), so the
clamp to `[0.0, 3.0]` never alters the value. -/
theorem c10_preclamp_in_range :
    ∀ (t : BasicSim.Tick), |t.sinv| ≤ 1 →
    -(1 / 20) ≤ t.noise → t.noise ≤ 1 / 20 →
    (27 / 20 ≤ BasicSim.pre_clamp_level t
      ∧ BasicSim.pre_clamp_level t ≤ 33 / 20
      ∧ BasicSim.new_level t = BasicSim.pre_clamp_level t) := by
  intro t hs hn1 hn2
  have hs1 : -1 ≤ t.sinv := neg_le_of_abs_le hs
  have hs2 : t.sinv ≤ 1 := le_of_abs_le hs
  have hb : BasicSim.pre_clamp_level t
      = 3 / 2 + t.sinv * (1 / 10) + t.noise := by
    unfold BasicSim.pre_clamp_level BasicSim.base_water_level
    ring
  have hlo : 27 / 20 ≤ BasicSim.pre_clamp_level t := by rw [hb]; linarith
  have hhi : BasicSim.pre_clamp_level t ≤ 33 / 20 := by rw [hb]; linarith
  refine ⟨hlo, hhi, ?_⟩
  unfold BasicSim.new_level
  rw [min_eq_right (by linarith), max_eq_right (by linarith)]

/-- Claim C10 witness: the range and clamp-identity at a concrete tick
with zero sine and zero noise (level exactly 1.5 m). -/
theorem c10_preclamp_in_range_witness :
    27 / 20 ≤ BasicSim.pre_clamp_level ⟨"ts", 0, 0, 20, 70, 90, -60⟩
    ∧ BasicSim.pre_clamp_level ⟨"ts", 0, 0, 20, 70, 90, -60⟩ ≤ 33 / 20
    ∧ BasicSim.new_level ⟨"ts", 0, 0, 20, 70, 90, -60⟩
        = BasicSim.pre_clamp_level ⟨"ts", 0, 0, 20, 70, 90, -60⟩ :=
  c10_preclamp_in_range ⟨"ts", 0, 0, 20, 70, 90, -60⟩ (by norm_num)
    (by norm_num) (by norm_num)
